import Mathlib

/-!
Verification of the multi-provider LLM request/response adapter in
`src/vertex_desktop/main.py` (class `APIWorker` and the pre-flight checks of
`QueryTab.generate_response`).

The embedding is shallow: Python dict/list JSON values become the inductive
type `JVal`; the payload builders construct `JVal` objects with the exact key
strings of the source; the stream parsers operate on the raw response text
using the same line splitting and prefix tests as the source, with Python's
`json.loads` modelled as an externally supplied decoding oracle
`jdec : String -> Option JVal` (the `json` module is the standard library, not
code of this repository).  `bytes` become `List Nat`, `utf-8` decoding and
`mimetypes.guess_type` are likewise external oracles.  Machine integers do not
overflow in any code path modelled here, so `Int`/`Nat` are used directly;
Python's `//` on the non-negative quantities involved coincides with `Int`
division.

Conventions forced by the dynamic typing of the source: accessing a string
field that is present but holds a non-string JSON value yields `""` in the
model (the corresponding Python would raise a `TypeError`, which the worker's
outer handler turns into a terminal error emission; no claim below depends on
such type-confused inputs).  A Python dict is modelled as an association list;
objects produced by `json.loads` have unique keys, so first-key lookup agrees
with dict lookup on all decodable inputs.
-/

/-- JSON-like values, the model of Python dict/list/str/int/bool/None data. -/
inductive JVal : Type where
  | null : JVal
  | bool (b : Bool) : JVal
  | num (n : Int) : JVal
  | str (s : String) : JVal
  | arr (xs : List JVal) : JVal
  | obj (fs : List (String × JVal)) : JVal

/-- Model of Python `d.get(k)` (returning `None` when absent or not a dict). -/
def jGet (j : JVal) (k : String) : Option JVal :=
  match j with
  | .obj fs => fs.lookup k
  | _ => none

/-- Model of Python `d.get(k, dflt)`. -/
def jGetD (j : JVal) (k : String) (dflt : JVal) : JVal :=
  match jGet j k with
  | some v => v
  | none => dflt

/-- Model of Python `d.get(k, "")` for string fields (see header conventions). -/
def jGetStr (j : JVal) (k : String) : String :=
  match jGet j k with
  | some (.str s) => s
  | _ => ""

/-- Model of Python `d.get(k, dflt)` for string fields with a string default. -/
def jGetStrD (j : JVal) (k : String) (dflt : String) : String :=
  match jGet j k with
  | some (.str s) => s
  | _ => dflt

/-- Model of Python `d.get(k, [])` read as a list. -/
def jGetArr (j : JVal) (k : String) : List JVal :=
  match jGet j k with
  | some (.arr xs) => xs
  | _ => []

/-- Model of Python key membership `k in d`. -/
def jHas (j : JVal) (k : String) : Bool :=
  match j with
  | .obj fs => (fs.lookup k).isSome
  | _ => false

/-- Model of Python truthiness on JSON values. -/
def jTruthy : JVal → Bool
  | .null => false
  | .bool b => b
  | .num n => n != 0
  | .str s => s != ""
  | .arr xs => !xs.isEmpty
  | .obj fs => !fs.isEmpty

/-- Key list of a JSON object (empty for non-objects). -/
def jKeys : JVal → List String
  | .obj fs => fs.map (fun f => f.1)
  | _ => []

/-- Alphabet of standard base64, as in Python's `base64.b64encode`. -/
def b64Alphabet : List Char :=
  "ABCDEFGHIJKLMNOPQRSTUVWXYZabcdefghijklmnopqrstuvwxyz0123456789+/".toList

/-- Character of the base64 alphabet at a 6-bit index. -/
def b64Char (n : Nat) : Char := b64Alphabet.getD (n % 64) 'A'

/-- Standard base64 with padding, the model of `base64.b64encode(..).decode('utf-8')`. -/
def b64encode : List Nat → String
  | [] => ""
  | [a] =>
      String.mk [b64Char (a / 4), b64Char ((a % 4) * 16), '=', '=']
  | [a, b] =>
      String.mk [b64Char (a / 4), b64Char ((a % 4) * 16 + b / 16),
                 b64Char ((b % 16) * 4), '=']
  | a :: b :: c :: rest =>
      String.mk [b64Char (a / 4), b64Char ((a % 4) * 16 + b / 16),
                 b64Char ((b % 16) * 4 + c / 64), b64Char (c % 64)]
        ++ b64encode rest

/-- Endpoint identifier `ENDPOINT_VERTEX_AI` (main.py line 35). -/
def ENDPOINT_VERTEX_AI : String := "vertex_ai"

/-- Endpoint identifier `ENDPOINT_AI_STUDIO` (main.py line 36). -/
def ENDPOINT_AI_STUDIO : String := "ai_studio"

/-- Endpoint identifier `ENDPOINT_CUSTOM` (main.py line 37). -/
def ENDPOINT_CUSTOM : String := "custom"

/-- One entry of `AVAILABLE_MODELS` (main.py lines 186-357): the fields consumed
by the request path.  `maxInputTokensExtended` is `none` where the source dict
omits `max_input_tokens_extended`; boolean capability fields are `false` where
the source omits them (Python `dict.get` on a missing key is falsy). -/
structure ModelConfig where
  publisher : String
  modelId : String
  aiStudioModelId : Option String
  maxInputTokens : Nat
  maxOutputTokens : Int
  maxInputTokensExtended : Option Nat
  supports1mContext : Bool
  supportsMemory : Bool
  supportsGrounding : Bool
  supportsDeepThinking : Bool
  defaultThinkingLevel : Option String
  endpointSupport : List String
  deriving DecidableEq

/-- Registry entry `claude-haiku-4-5`. -/
def claude_haiku_4_5 : ModelConfig :=
  { publisher := "anthropic"
    modelId := "claude-haiku-4-5@20251001:streamRawPredict"
    aiStudioModelId := none
    maxInputTokens := 200000
    maxOutputTokens := 8192
    maxInputTokensExtended := none
    supports1mContext := false
    supportsMemory := false
    supportsGrounding := false
    supportsDeepThinking := false
    defaultThinkingLevel := none
    endpointSupport := [ENDPOINT_VERTEX_AI] }

/-- Registry entry `claude-sonnet-4-5` (supports 1M context and the memory tool). -/
def claude_sonnet_4_5 : ModelConfig :=
  { publisher := "anthropic"
    modelId := "claude-sonnet-4-5@20250929:streamRawPredict"
    aiStudioModelId := none
    maxInputTokens := 200000
    maxOutputTokens := 64000
    maxInputTokensExtended := some 1000000
    supports1mContext := true
    supportsMemory := true
    supportsGrounding := false
    supportsDeepThinking := false
    defaultThinkingLevel := none
    endpointSupport := [ENDPOINT_VERTEX_AI] }

/-- Registry entry `claude-opus-4-5`. -/
def claude_opus_4_5 : ModelConfig :=
  { publisher := "anthropic"
    modelId := "claude-opus-4-5@20251101:streamRawPredict"
    aiStudioModelId := none
    maxInputTokens := 200000
    maxOutputTokens := 64000
    maxInputTokensExtended := none
    supports1mContext := false
    supportsMemory := false
    supportsGrounding := false
    supportsDeepThinking := false
    defaultThinkingLevel := none
    endpointSupport := [ENDPOINT_VERTEX_AI] }

/-- Registry entry `claude-opus-4-1`. -/
def claude_opus_4_1 : ModelConfig :=
  { publisher := "anthropic"
    modelId := "claude-opus-4-1@20250805:streamRawPredict"
    aiStudioModelId := none
    maxInputTokens := 200000
    maxOutputTokens := 32000
    maxInputTokensExtended := none
    supports1mContext := false
    supportsMemory := false
    supportsGrounding := false
    supportsDeepThinking := false
    defaultThinkingLevel := none
    endpointSupport := [ENDPOINT_VERTEX_AI] }

/-- Registry entry `gemini-2-5-pro`. -/
def gemini_2_5_pro : ModelConfig :=
  { publisher := "google"
    modelId := "gemini-2.5-pro@default:streamGenerateContent"
    aiStudioModelId := some "gemini-2.5-pro"
    maxInputTokens := 1048576
    maxOutputTokens := 65536
    maxInputTokensExtended := none
    supports1mContext := false
    supportsMemory := false
    supportsGrounding := true
    supportsDeepThinking := false
    defaultThinkingLevel := none
    endpointSupport := [ENDPOINT_VERTEX_AI, ENDPOINT_AI_STUDIO] }

/-- Registry entry `gemini-2-5-flash`. -/
def gemini_2_5_flash : ModelConfig :=
  { publisher := "google"
    modelId := "gemini-2.5-flash@default:streamGenerateContent"
    aiStudioModelId := some "gemini-2.5-flash"
    maxInputTokens := 1048576
    maxOutputTokens := 65535
    maxInputTokensExtended := none
    supports1mContext := false
    supportsMemory := false
    supportsGrounding := true
    supportsDeepThinking := false
    defaultThinkingLevel := none
    endpointSupport := [ENDPOINT_VERTEX_AI, ENDPOINT_AI_STUDIO] }

/-- Registry entry `gemini-3-pro-preview`. -/
def gemini_3_pro_preview : ModelConfig :=
  { publisher := "google"
    modelId := "gemini-3-pro-preview:streamGenerateContent"
    aiStudioModelId := some "gemini-3-pro-preview"
    maxInputTokens := 2097152
    maxOutputTokens := 65536
    maxInputTokensExtended := none
    supports1mContext := false
    supportsMemory := false
    supportsGrounding := true
    supportsDeepThinking := false
    defaultThinkingLevel := none
    endpointSupport := [ENDPOINT_VERTEX_AI, ENDPOINT_AI_STUDIO] }

/-- Registry entry `gemini-3-pro-preview-deep-think` (deep thinking, AI Studio only). -/
def gemini_3_pro_preview_deep_think : ModelConfig :=
  { publisher := "google"
    modelId := "gemini-3-pro-preview:generateContent"
    aiStudioModelId := some "gemini-3-pro-preview"
    maxInputTokens := 2097152
    maxOutputTokens := 65536
    maxInputTokensExtended := none
    supports1mContext := false
    supportsMemory := false
    supportsGrounding := true
    supportsDeepThinking := true
    defaultThinkingLevel := some "high"
    endpointSupport := [ ENDPOINT_AI_STUDIO] }

/-- Registry entry `gemini-3-flash-preview`. -/
def gemini_3_flash_preview : ModelConfig :=
  { publisher := "google"
    modelId := "gemini-3-flash-preview:streamGenerateContent"
    aiStudioModelId := some "gemini-3-flash-preview"
    maxInputTokens := 1048576
    maxOutputTokens := 65535
    maxInputTokensExtended := none
    supports1mContext := false
    supportsMemory := false
    supportsGrounding := true
    supportsDeepThinking := false
    defaultThinkingLevel := none
    endpointSupport := [ENDPOINT_VERTEX_AI, ENDPOINT_AI_STUDIO] }

/-- The static model registry `AVAILABLE_MODELS` (main.py lines 186-357). -/
def AVAILABLE_MODELS : List (String × ModelConfig) :=
  [("claude-haiku-4-5", claude_haiku_4_5),
   ("claude-sonnet-4-5", claude_sonnet_4_5),
   ("claude-opus-4-5", claude_opus_4_5),
   ("claude-opus-4-1", claude_opus_4_1),
   ("gemini-2-5-pro", gemini_2_5_pro),
   ("gemini-2-5-flash", gemini_2_5_flash),
   ("gemini-3-pro-preview", gemini_3_pro_preview),
   ("gemini-3-pro-preview-deep-think", gemini_3_pro_preview_deep_think),
   ("gemini-3-flash-preview", gemini_3_flash_preview)]

/-- One conversation turn, an element of `self.history`. -/
structure Turn where
  role : String
  content : String
  deriving DecidableEq

/-- The state of an `APIWorker` as set up in `__init__` (main.py lines 913-929).
`fileData` is `none` for Python `None`; an empty byte list models `b""` (both
are falsy in the `if self.file_data:` guard). -/
structure Worker where
  modelConfig : ModelConfig
  prompt : String
  use1mContext : Bool
  useMemory : Bool
  endpointType : String
  apiKey : Option String
  filePath : Option String
  fileData : Option (List Nat)
  history : List Turn
  useGrounding : Bool
  customUrl : Option String
  thinkingLevel : Option String
  includeThoughts : Bool
  deriving DecidableEq

/-- Python rendering of `self.file_path` inside an f-string (`None` when absent). -/
def pathStr (w : Worker) : String :=
  match w.filePath with
  | some p => p
  | none => "None"

/-- The value `mimetypes.guess_type(self.file_path)[0] if self.file_path else
"application/octet-stream"` (main.py lines 992 and 1077), with `guess_type`
supplied as the oracle `g`. -/
def effMime (w : Worker) (g : String → Option String) : Option String :=
  match w.filePath with
  | some p => if p = "" then some "application/octet-stream" else g p
  | none => some "application/octet-stream"

/-- Test `mime_type and mime_type.startswith("image/")`.  An empty string is
falsy in Python and also does not start with `image/`, so the two agree. -/
def mimeIsImage : Option String → Bool
  | some m => m.startsWith "image/"
  | none => false

/-- JSON rendering of a possibly absent mime type (Python `None` becomes JSON null). -/
def mimeVal : Option String → JVal
  | some m => .str m
  | none => .null

/-- Anthropic image/document content block with base64 source (main.py 996-1013, 1024-1031). -/
def b64Block (t : String) (mime : Option String) (bs : List Nat) : JVal :=
  .obj [("type", .str t),
        ("source", .obj [("type", .str "base64"),
                         ("media_type", mimeVal mime),
                         ("data", .str (b64encode bs))])]

/-- The fenced text wrapper for a UTF-8 decodable attachment (main.py 1020, 1092). -/
def fencedFileText (path text : String) : String :=
  "[File: " ++ path ++ "]\n" ++ text ++ "\n[End of file]"

/-- Attachment content blocks of the anthropic branch (main.py lines 986-1031),
with `dec` the UTF-8 decode oracle and `g` the mime-type oracle.  Empty when
`self.file_data` is falsy. -/
def anthropicFileBlocks (w : Worker) (dec : List Nat → Option String)
    (g : String → Option String) : List JVal :=
  match w.fileData with
  | none => []
  | some bs =>
    if bs.isEmpty then []
    else
      let mime := effMime w g
      if mimeIsImage mime then
        [b64Block "image" mime bs]
      else if mime = some "application/pdf" then
        [b64Block "document" mime bs]
      else
        match dec bs with
        | some text =>
            [.obj [("type", .str "text"), ("text", .str (fencedFileText (pathStr w) text))]]
        | none => [b64Block "document" mime bs]

/-- The anthropic `max_output` computation (main.py lines 966-975): under the 1M
context beta the output budget is reduced by the `len(prompt) // 4` input
estimate.  Python integers are unbounded and the subtraction can go negative,
hence `Int`. -/
def anthropicMaxOutput (w : Worker) : Int :=
  if w.use1mContext ∧ w.modelConfig.supports1mContext then
    min w.modelConfig.maxOutputTokens (1000000 - (Int.ofNat w.prompt.length) / 4)
  else w.modelConfig.maxOutputTokens

/-- The emitted `max_tokens` value `max(1024, max_output)` (main.py line 1045). -/
def anthropicMaxTokens (w : Worker) : Int :=
  max 1024 (anthropicMaxOutput w)

/-- The anthropic `messages` array (main.py lines 977-1040): history turns
verbatim, then the current user turn whose content is the attachment blocks
followed by the prompt text block. -/
def anthropicMessages (w : Worker) (dec : List Nat → Option String)
    (g : String → Option String) : List JVal :=
  w.history.map (fun t => .obj [("role", .str t.role), ("content", .str t.content)])
    ++ [.obj [("role", .str "user"),
              ("content", .arr (anthropicFileBlocks w dec g
                                ++ [.obj [("type", .str "text"), ("text", .str w.prompt)]]))]]

/-- The anthropic request payload (main.py lines 1042-1056). -/
def anthropicPayload (w : Worker) (dec : List Nat → Option String)
    (g : String → Option String) : JVal :=
  let base : List (String × JVal) :=
    [("anthropic_version", .str "vertex-2023-10-16"),
     ("messages", .arr (anthropicMessages w dec g)),
     ("max_tokens", .num (anthropicMaxTokens w)),
     ("stream", .bool true)]
  if w.useMemory ∧ w.modelConfig.supportsMemory then
    .obj (base ++ [("tools", .arr [.obj [("type", .str "memory_20250818"),
                                         ("name", .str "memory")]])])
  else .obj base

/-- Attachment parts of the google branch (main.py lines 1074-1101). -/
def googleFileParts (w : Worker) (dec : List Nat → Option String)
    (g : String → Option String) : List JVal :=
  match w.fileData with
  | none => []
  | some bs =>
    if bs.isEmpty then []
    else
      let mime := effMime w g
      if mimeIsImage mime then
        [.obj [("inline_data", .obj [("mime_type", mimeVal mime),
                                     ("data", .str (b64encode bs))])]]
      else
        match dec bs with
        | some text => [.obj [("text", .str (fencedFileText (pathStr w) text))]]
        | none =>
            [.obj [("inline_data", .obj [("mime_type", mimeVal mime),
                                         ("data", .str (b64encode bs))])]]

/-- The google `contents` array (main.py lines 1062-1110): history with the
`assistant` role remapped to `model` and every other role mapped to `user`,
then the current user turn with attachment parts followed by the prompt part. -/
def googleContents (w : Worker) (dec : List Nat → Option String)
    (g : String → Option String) : List JVal :=
  w.history.map (fun t =>
      .obj [("role", .str (if t.role = "assistant" then "model" else "user")),
            ("parts", .arr [.obj [("text", .str t.content)]])])
    ++ [.obj [("role", .str "user"),
              ("parts", .arr (googleFileParts w dec g ++ [.obj [("text", .str w.prompt)]]))]]

/-- The google `generationConfig` (main.py lines 1112-1122). -/
def googleGenerationConfig (w : Worker) : JVal :=
  if w.modelConfig.supportsDeepThinking ∧ (w.thinkingLevel.getD "") ≠ "" then
    .obj [("maxOutputTokens", .num w.modelConfig.maxOutputTokens),
          ("thinkingConfig", .obj [("includeThoughts", .bool w.includeThoughts),
                                   ("thinkingLevel", .str (w.thinkingLevel.getD ""))])]
  else
    .obj [("maxOutputTokens", .num w.modelConfig.maxOutputTokens)]

/-- The google request payload (main.py lines 1124-1137), with the grounding
tool key selected by access mode: `googleSearch` on AI Studio, `google_search`
otherwise. -/
def googlePayload (w : Worker) (dec : List Nat → Option String)
    (g : String → Option String) : JVal :=
  let base : List (String × JVal) :=
    [("contents", .arr (googleContents w dec g)),
     ("generationConfig", googleGenerationConfig w)]
  if w.useGrounding then
    if w.endpointType = ENDPOINT_AI_STUDIO then
      .obj (base ++ [("tools", .arr [.obj [("googleSearch", .obj [])]])])
    else
      .obj (base ++ [("tools", .arr [.obj [("google_search", .obj [])]])])
  else .obj base

/-- The OpenAI-compatible payload of the custom-endpoint branch (main.py lines
1138-1160). -/
def openaiPayload (w : Worker) : JVal :=
  .obj [("model", .str "custom"),
        ("messages", .arr
          (w.history.map (fun t => .obj [("role", .str t.role), ("content", .str t.content)])
            ++ [.obj [("role", .str "user"), ("content", .str w.prompt)]])),
        ("stream", .bool true),
        ("max_tokens", .num w.modelConfig.maxOutputTokens)]

/-- `APIWorker.build_request_payload` (main.py lines 963-1162).  The branch on
the publisher comes first; the custom-endpoint branch is reached only when the
publisher is neither `anthropic` nor `google`; any other combination raises
`ValueError`, modelled as `Except.error`. -/
def build_request_payload (w : Worker) (dec : List Nat → Option String)
    (g : String → Option String) : Except String JVal :=
  if w.modelConfig.publisher = "anthropic" then
    .ok (anthropicPayload w dec g)
  else if w.modelConfig.publisher = "google" then
    .ok (googlePayload w dec g)
  else if w.endpointType = ENDPOINT_CUSTOM then
    .ok (openaiPayload w)
  else
    .error ("Unknown publisher: " ++ w.modelConfig.publisher)

/-- `APIWorker.build_url` (main.py lines 943-961).  Only the raising behaviour
and the deterministic string composition matter to the claims; `PROJECT_ID`
and `LOCATION` are runtime inputs, passed in explicitly here. -/
def build_url (w : Worker) (projectId location : String) : Except String String :=
  if w.endpointType = ENDPOINT_CUSTOM then
    .ok (w.customUrl.getD "")
  else if w.endpointType = ENDPOINT_AI_STUDIO then
    if w.modelConfig.publisher = "google" then
      .ok ("https://generativelanguage.googleapis.com/v1beta/models/"
           ++ (w.modelConfig.aiStudioModelId.getD
                 ((w.modelConfig.modelId.splitOn ":").headD ""))
           ++ ":streamGenerateContent")
    else
      .error ("AI Studio endpoint does not support " ++ w.modelConfig.publisher ++ " models")
  else
    .ok ("https://aiplatform.googleapis.com/v1/projects/" ++ projectId
         ++ "/locations/" ++ location
         ++ "/publishers/" ++ w.modelConfig.publisher
         ++ "/models/" ++ ((w.modelConfig.modelId.splitOn ":").headD "")
         ++ ":" ++ (if (w.modelConfig.modelId.splitOn ":").length ≥ 2 then
                      ((w.modelConfig.modelId.splitOn ":").getD 1 "")
                    else "predict"))

/-- ASCII whitespace as stripped by Python's `str.strip()`. -/
def pySpace (c : Char) : Bool :=
  c = ' ' || c = '\t' || c = '\n' || c = '\r' || c = '\x0b' || c = '\x0c'

/-- Python `s.strip()` (ASCII whitespace; structurally recursive so that the
kernel can evaluate it, unlike `String.trim`). -/
def strTrim (s : String) : String :=
  String.mk (((s.data.dropWhile pySpace).reverse.dropWhile pySpace).reverse)

/-- Python `s.startswith(pre)`. -/
def strStartsWith (s pre : String) : Bool :=
  pre.data.isPrefixOf s.data

/-- Python `s.endswith(suf)`. -/
def strEndsWith (s suf : String) : Bool :=
  suf.data.isSuffixOf s.data

/-- Python `s[n:]` (drop the first `n` characters). -/
def strDrop (s : String) (n : Nat) : String :=
  String.mk (s.data.drop n)

/-- Python `s[:-n]` for `n ≤ len(s)` (drop the last `n` characters). -/
def strDropRight (s : String) (n : Nat) : String :=
  String.mk (s.data.take (s.data.length - n))

/-- Split a character list at every occurrence of `c`, keeping empty fields. -/
def splitChar (c : Char) : List Char → List (List Char)
  | [] => [[]]
  | x :: xs =>
      let r := splitChar c xs
      if x = c then [] :: r
      else
        match r with
        | [] => [[x]]
        | h :: t => (x :: h) :: t

/-- Python `s.split('\n')`. -/
def splitLines (s : String) : List String :=
  (splitChar '\n' s.data).map String.mk

/-- Whether `needle` occurs as a contiguous substring. -/
def listContainsSub (needle : List Char) : List Char → Bool
  | [] => needle.isEmpty
  | x :: xs => needle.isPrefixOf (x :: xs) || listContainsSub needle xs

/-- Classification of one decoded `data:` payload in
`APIWorker.parse_anthropic_stream` (main.py lines 1176-1202): the text of a
`content_block_delta`/`text_delta` event, the initial text of a
`content_block_start` event whose block type is `text`, and nothing for
`tool_use` starts, `input_json_delta` deltas, and every other event. -/
def anthropicEventText (j : JVal) : String :=
  match jGet j "type" with
  | some (.str "content_block_delta") =>
      let delta := jGetD j "delta" (.obj [])
      match jGet delta "type" with
      | some (.str "text_delta") => jGetStr delta "text"
      | _ => ""
  | some (.str "content_block_start") =>
      let cb := jGetD j "content_block" (.obj [])
      match jGet cb "type" with
      | some (.str "text") => jGetStr cb "text"
      | _ => ""
  | _ => ""

/-- Contribution of a single raw line to the anthropic parse (main.py lines
1171-1206): only lines starting with `data: ` count, a blank or `[DONE]`
payload is skipped, and a payload `json.loads` rejects (`jdec` returns `none`)
is skipped without aborting. -/
def anthropicLineText (jdec : String → Option JVal) (line : String) : String :=
  if strStartsWith line "data: " then
    let ds := strTrim (strDrop line 6)
    if ds ≠ "" ∧ ds ≠ "[DONE]" then
      match jdec ds with
      | some j => anthropicEventText j
      | none => ""
    else ""
  else ""

/-- The accumulation loop of `parse_anthropic_stream` over the split lines. -/
def anthropicFold (jdec : String → Option JVal) (lines : List String) (acc : String) : String :=
  match lines with
  | [] => acc
  | l :: rest => anthropicFold jdec rest (acc ++ anthropicLineText jdec l)

/-- `APIWorker.parse_anthropic_stream` (main.py lines 1164-1209). -/
def parse_anthropic_stream (jdec : String → Option JVal) (response_text : String) : String :=
  anthropicFold jdec (splitLines response_text) ""

/-- One grounding citation candidate `{title, uri}` (main.py lines 1248-1251). -/
structure GSource where
  title : String
  uri : String
  deriving DecidableEq

/-- Accumulator state of `parse_google_stream`. -/
structure GAcc where
  thoughts : String
  answer : String
  sources : List GSource
  deriving DecidableEq

/-- The nested helper `extract_content_from_data` (main.py lines 1222-1253):
thought-flagged parts feed the thinking accumulator (each followed by a
newline), other parts carrying a `text` key feed the answer accumulator, and
`groundingMetadata.groundingChunks[*].web` entries yield citation candidates
with defaults `Source` and `#`. -/
def extract_content_from_data (j : JVal) : GAcc :=
  match jGetArr j "candidates" with
  | [] => { thoughts := "", answer := "", sources := [] }
  | c :: _ =>
    let parts := jGetArr (jGetD c "content" (.obj [])) "parts"
    let texts := parts.foldl (fun (acc : String × String) p =>
      if jTruthy (jGetD p "thought" .null) then
        (acc.1 ++ jGetStr p "text" ++ "\n", acc.2)
      else if jHas p "text" then
        (acc.1, acc.2 ++ jGetStr p "text")
      else acc) ("", "")
    let grounding := jGetD c "groundingMetadata" (.obj [])
    let sources :=
      if jTruthy grounding then
        (jGetArr grounding "groundingChunks").foldl (fun (acc : List GSource) chunk =>
          let web := jGetD chunk "web" (.obj [])
          if jTruthy web then
            acc ++ [{ title := jGetStrD web "title" "Source",
                      uri := jGetStrD web "uri" "#" }]
          else acc) []
      else []
    { thoughts := texts.1, answer := texts.2, sources := sources }

/-- Merge of one extracted chunk into the running accumulators (main.py lines
1261-1264 and 1281-1284). -/
def gAccAppend (a b : GAcc) : GAcc :=
  { thoughts := a.thoughts ++ b.thoughts
    answer := a.answer ++ b.answer
    sources := a.sources ++ b.sources }

/-- The accumulation phase of `parse_google_stream` (main.py lines 1216-1286):
a response text whose stripped form starts with `[` is decoded as one JSON
array (a failed decode contributes nothing — `json.loads` on such a text can
only return a list or raise); otherwise the text is split into lines,
stripped, blank and lone-comma lines dropped, a trailing comma removed per
line, and each line decoded individually with undecodable lines skipped. -/
def googleAccum (jdec : String → Option JVal) (response_text : String) : GAcc :=
  if strStartsWith (strTrim response_text) "[" then
    match jdec response_text with
    | some (.arr ds) =>
        ds.foldl (fun acc d => gAccAppend acc (extract_content_from_data d)) ⟨"", "", []⟩
    | _ => ⟨"", "", []⟩
  else
    let lines := ((splitLines response_text).map strTrim).filter
      (fun l => l ≠ "" ∧ l ≠ ",")
    lines.foldl (fun acc l =>
      let l' := if strEndsWith l "," then strDropRight l 1 else l
      match jdec l' with
      | some d => gAccAppend acc (extract_content_from_data d)
      | none => acc) ⟨"", "", []⟩

/-- The 50-character separator line `"=" * 50` (main.py lines 1294, 1300, 1311). -/
def eqSep : String := String.mk (List.replicate 50 '=')

/-- The numbering loop over citation candidates (main.py lines 1301-1305):
a source whose `uri` was already seen is dropped, a new one is numbered
`len(seen_uris)` after insertion, i.e. position in first-seen order. -/
def numberSources (seen : List String) : List GSource → List (Nat × GSource)
  | [] => []
  | s :: rest =>
      if s.uri ∈ seen then numberSources seen rest
      else (seen.length + 1, s) :: numberSources (seen ++ [s.uri]) rest

/-- Rendering of one numbered citation line (main.py line 1305). -/
def sourceLine (p : Nat × GSource) : String :=
  "[" ++ toString p.1 ++ "] " ++ p.2.title ++ " (" ++ p.2.uri ++ ")\n"

/-- The optional deep-thinking section (main.py lines 1292-1295): present only
when the stripped thought text is non-empty and `include_thoughts` is set. -/
def thinkSection (thoughts : String) (includeThoughts : Bool) : String :=
  if strTrim thoughts ≠ "" ∧ includeThoughts then
    "🧠 DEEP THINKING PROCESS\n" ++ eqSep ++ "\n" ++ strTrim thoughts ++ "\n\n"
  else ""

/-- The optional search-sources section (main.py lines 1298-1306). -/
def sourcesSection (sources : List GSource) : String :=
  if sources.isEmpty then ""
  else
    "🔍 SEARCH SOURCES\n" ++ eqSep ++ "\n"
      ++ String.join ((numberSources [] sources).map sourceLine) ++ "\n"

/-- `APIWorker.parse_google_stream` (main.py lines 1211-1315): thinking section,
then sources section, then — only when a previous section exists — the final
answer header, then the stripped accumulated answer text. -/
def parse_google_stream (jdec : String → Option JVal) (includeThoughts : Bool)
    (response_text : String) : String :=
  let acc := googleAccum jdec response_text
  let pre := thinkSection acc.thoughts includeThoughts ++ sourcesSection acc.sources
  (if pre ≠ "" then pre ++ "📝 FINAL ANSWER\n" ++ eqSep ++ "\n" else "") ++ strTrim acc.answer

/-- Substring test `"data:" in response_text` (main.py line 1322). -/
def containsData (s : String) : Bool :=
  listContainsSub "data:".data s.data

/-- `APIWorker.parse_response` as invoked from `run()` (main.py lines 1317-1359,
call site line 1468): `response_data` is `None` there, so the anthropic branch
falls back to the raw text whenever the streaming parse is empty or no `data:`
marker occurs, the google branch falls back to the raw text when its parse is
empty, and any other publisher returns the raw text.  The function never
raises (its internal try/except returns a string in every case). -/
def parse_response (w : Worker) (jdec : String → Option JVal)
    (response_text : String) : String :=
  if w.modelConfig.publisher = "anthropic" then
    if containsData response_text then
      let parsed := parse_anthropic_stream jdec response_text
      if parsed ≠ "" then parsed else response_text
    else response_text
  else if w.modelConfig.publisher = "google" then
    let parsed := parse_google_stream jdec w.includeThoughts response_text
    if parsed ≠ "" then parsed else response_text
  else response_text

/-- One `finished` signal emission (main.py line 910): `(response, error,
raw_response, input_tokens, output_tokens)`. -/
structure Emission where
  resp : String
  err : String
  raw : String
  inTok : Nat
  outTok : Nat
  deriving DecidableEq

/-- The cancellation emission `("", "Query cancelled by user", "", 0, 0)`. -/
def cancelEmission : Emission :=
  { resp := "", err := "Query cancelled by user", raw := "", inTok := 0, outTok := 0 }

/-- An error emission `("", msg, "", 0, 0)`. -/
def errEmission (msg : String) : Emission :=
  { resp := "", err := msg, raw := "", inTok := 0, outTok := 0 }

/-- The HTTP response delivered by `requests.post` when the POST itself
succeeds: status code, body text (used in the non-200 error message), the
chunks yielded by `iter_content` in order, and an optional exception raised by
the iterator after those chunks. -/
structure HttpResp where
  status : Nat
  bodyText : String
  chunks : List String
  streamError : Option String

/-- The environment of one `run()` execution: everything the worker observes
from outside.  `cancelStep = some s` means `cancel()` set `_is_cancelled`
during the gap just before the worker's cancellation checkpoint number `s`
(checkpoints are numbered in execution order from 0; the terminal emission of
a complete execution happens after the last checkpoint, so `s` equal to the
number of executed checkpoints models a cancellation that arrives after every
check but still before the terminal emission).  Since the flag is only ever
set, a checkpoint `k` observes it exactly when `s ≤ k`.  `tokenResult` is the
outcome of the OAuth refresh (`get_access_token`), `postResult` the outcome of
`requests.post`, `jdec`/`dec`/`g` the `json.loads`, UTF-8 decode and
`mimetypes.guess_type` oracles. -/
structure RunEnv where
  cancelStep : Option Nat
  tokenResult : Except String String
  postResult : Except String HttpResp
  jdec : String → Option JVal
  dec : List Nat → Option String
  g : String → Option String

/-- Value of `self._is_cancelled` observed at checkpoint `k`. -/
def cancelledAt (env : RunEnv) (k : Nat) : Bool :=
  match env.cancelStep with
  | some s => s ≤ k
  | none => false

/-- The chunk-reading loop (main.py lines 1447-1459): for each delivered chunk
the flag is checked first (one checkpoint per chunk, numbered from `k`), then a
non-empty chunk is appended.  Returns either the cancellation emission with the
number of checkpoints executed so far, or the accumulated text with the index
of the next checkpoint. -/
def readChunks (env : RunEnv) : List String → Nat → String →
    (List Emission × Nat) ⊕ (String × Nat)
  | [], k, acc => .inr (acc, k)
  | c :: rest, k, acc =>
      if cancelledAt env k then .inl ([cancelEmission], k + 1)
      else readChunks env rest (k + 1) (if c ≠ "" then acc ++ c else acc)

/-- The authentication step of `run()` (main.py lines 1371-1381): AI Studio
requires an API key (`None`/empty is rejected), other endpoints call
`get_access_token` whose outcome is `env.tokenResult`. -/
def runWorkerAuth (w : Worker) (env : RunEnv) : Except String (Option String) :=
  if w.endpointType = ENDPOINT_AI_STUDIO then
    if (w.apiKey.getD "") = "" then .error "API key required for AI Studio endpoint"
    else .ok none
  else
    match env.tokenResult with
    | .ok tok => .ok (some tok)
    | .error e => .error e

/-- The tail of `run()` from checkpoint 1 onward (URL, payload, POST, stream
read, parse, terminal emission); checkpoint numbering is absolute. -/
def runWorkerTail (w : Worker) (env : RunEnv) (projectId location : String) :
    List Emission × Nat :=
  if cancelledAt env 1 then ([cancelEmission], 2)
  else
        match build_url w projectId location with
        | .error msg => ([errEmission msg], 2)
        | .ok _ =>
          match build_request_payload w env.dec env.g with
          | .error msg => ([errEmission msg], 2)
          | .ok _ =>
            if cancelledAt env 2 then ([cancelEmission], 3)
            else
              match env.postResult with
              | .error msg => ([errEmission msg], 3)
              | .ok resp =>
                if cancelledAt env 3 then ([cancelEmission], 4)
                else if resp.status ≠ 200 then
                  ([errEmission ("API call failed with status " ++ toString resp.status
                                 ++ ": " ++ resp.bodyText)], 4)
                else
                  match readChunks env resp.chunks 4 "" with
                  | .inl r => r
                  | .inr (response_text, k) =>
                    match resp.streamError with
                    | some e => ([errEmission ("Error reading response: " ++ e)], k)
                    | none =>
                      if cancelledAt env k then ([cancelEmission], k + 1)
                      else
                        let parsed := parse_response w env.jdec response_text
                        ([{ resp := parsed, err := "", raw := response_text,
                            inTok := w.prompt.length / 4,
                            outTok := parsed.length / 4 }], k + 1)

/-- `APIWorker.run` (main.py lines 1361-1481).  Returns the list of `finished`
emissions together with the number of cancellation checkpoints executed.
Checkpoints in order: 0 at entry (line 1364), 1 after authentication (1383),
2 after headers (1422), 3 after the POST returns (1433), one per delivered
chunk (1450), and one after the stream is fully read (1463).  Every exception
path of the source body is caught by the outer handler (line 1479) and becomes
a single error emission.  Authentication: AI Studio requires an API key, any
other endpoint refreshes OAuth credentials (`runWorkerAuth`). -/
def runWorker (w : Worker) (env : RunEnv) (projectId location : String) :
    List Emission × Nat :=
  if cancelledAt env 0 then ([cancelEmission], 1)
  else
    match runWorkerAuth w env with
    | .error msg => ([errEmission msg], 1)
    | .ok _ => runWorkerTail w env projectId location

/-- Pre-flight inputs of `QueryTab.generate_response` (main.py lines 2826-2950):
the raw prompt text, the selected model configuration, the checkbox and
endpoint selections, the credential fields, chain mode and stored history. -/
structure GenInput where
  rawPrompt : String
  modelConfig : ModelConfig
  use1mChecked : Bool
  useMemoryChecked : Bool
  useGroundingChecked : Bool
  endpointType : String
  apiKeyText : String
  customUrlText : String
  customApiKeyText : String
  credentialsPresent : Bool
  chainMode : Bool
  history : List Turn
  includeThoughtsChecked : Bool
  thinkingLevelData : Option String
  selectedFilePath : Option String
  selectedFileData : Option (List Nat)

/-- Outcome of the pre-flight phase: either an early return (no worker, hence
no credential refresh, no payload build, no network call) or a started worker. -/
inductive GenOutcome where
  | emptyPrompt
  | promptTooLong
  | capabilityMismatch
  | missingApiKey
  | missingCustomUrl
  | missingCredentials
  | started (w : Worker)

/-- `QueryTab.generate_response` up to worker creation (main.py lines
2826-2950): empty-prompt check, input-length check against the (possibly
extended) token budget times 4, endpoint-compatibility check against
`endpoint_support`, then per-endpoint credential checks, then the worker is
constructed with the computed flags. -/
def generate_response (i : GenInput) : GenOutcome :=
  let prompt := strTrim i.rawPrompt
  if prompt = "" then .emptyPrompt
  else
    let maxToks :=
      if i.use1mChecked ∧ i.modelConfig.supports1mContext then
        i.modelConfig.maxInputTokensExtended.getD i.modelConfig.maxInputTokens
      else i.modelConfig.maxInputTokens
    if prompt.length > maxToks * 4 then .promptTooLong
    else
      let use1m := i.use1mChecked ∧ i.modelConfig.supports1mContext
      let useMemory := i.useMemoryChecked ∧ i.modelConfig.supportsMemory
      if i.endpointType ∉ i.modelConfig.endpointSupport then .capabilityMismatch
      else
        let keyCheck : Except GenOutcome (Option String × Option String) :=
          if i.endpointType = ENDPOINT_AI_STUDIO then
            if strTrim i.apiKeyText = "" then .error .missingApiKey
            else .ok (some (strTrim i.apiKeyText), none)
          else if i.endpointType = ENDPOINT_CUSTOM then
            if strTrim i.customUrlText = "" then .error .missingCustomUrl
            else .ok (if strTrim i.customApiKeyText = "" then none
                      else some (strTrim i.customApiKeyText),
                      some (strTrim i.customUrlText))
          else
            if ¬ i.credentialsPresent then .error .missingCredentials
            else .ok (none, none)
        match keyCheck with
        | .error o => o
        | .ok (apiKey, customUrl) =>
          .started
            { modelConfig := i.modelConfig
              prompt := prompt
              use1mContext := use1m
              useMemory := useMemory
              endpointType := i.endpointType
              apiKey := apiKey
              filePath := i.selectedFilePath
              fileData := i.selectedFileData
              history := if i.chainMode then i.history else []
              useGrounding := i.useGroundingChecked ∧ i.modelConfig.supportsGrounding
              customUrl := customUrl
              thinkingLevel := if i.modelConfig.supportsDeepThinking then i.thinkingLevelData else none
              includeThoughts := if i.modelConfig.supportsDeepThinking then i.includeThoughtsChecked else true }

/-- Concatenation of a list of strings in order (the spec-side notion of
"concatenation, in arrival order"). -/
def concatStrings : List String → String
  | [] => ""
  | s :: rest => s ++ concatStrings rest

/-- Spec-side description of deduplication keeping the first occurrence of each
element ("exactly one entry per distinct URI, in first-seen order"). -/
def firstOccur : List String → List String
  | [] => []
  | u :: rest => u :: firstOccur (rest.filter (fun v => v ≠ u))
termination_by l => l.length
decreasing_by
  simp only [List.length_cons]
  exact Nat.lt_succ_of_le (List.length_filter_le _ _)

/-- Decode oracle that rejects every string (no line is valid JSON). -/
def noJdec : String → Option JVal := fun _ => none

/-- UTF-8 oracle that rejects every byte sequence. -/
def noDec : List Nat → Option String := fun _ => none

/-- Mime oracle that recognises no path (`guess_type` returning `None`). -/
def noMime : String → Option String := fun _ => none

/-- A baseline worker: Claude Sonnet 4.5 on the Vertex endpoint, prompt `hi`,
no attachment, no history, no feature flags. -/
def baseWorker : Worker :=
  { modelConfig := claude_sonnet_4_5
    prompt := "hi"
    use1mContext := false
    useMemory := false
    endpointType := ENDPOINT_VERTEX_AI
    apiKey := none
    filePath := none
    fileData := none
    history := []
    useGrounding := false
    customUrl := none
    thinkingLevel := none
    includeThoughts := true }

/-- A 4,000,000-character prompt, whose `len // 4` input estimate is exactly
the 1M extended ceiling. -/
def bigPrompt : String := String.mk (List.replicate 4000000 'a')

/-- Worker requesting extended context with the oversized prompt. -/
def wBig : Worker := { baseWorker with prompt := bigPrompt, use1mContext := true }

/-- Worker with extended context requested and a short prompt. -/
def wSmall : Worker := { baseWorker with use1mContext := true }

/-- Anthropic-publisher worker addressed through the custom access mode. -/
def wCustomAnthropic : Worker := { baseWorker with endpointType := ENDPOINT_CUSTOM }

/-- A generic-publisher model configuration (an OpenAI-compatible target; no
such entry exists in `AVAILABLE_MODELS`, but the custom-endpoint branch of the
builder is only reachable for such a publisher). -/
def genericConfig : ModelConfig :=
  { publisher := "generic"
    modelId := "generic-model"
    aiStudioModelId := none
    maxInputTokens := 128000
    maxOutputTokens := 4096
    maxInputTokensExtended := none
    supports1mContext := false
    supportsMemory := false
    supportsGrounding := false
    supportsDeepThinking := false
    defaultThinkingLevel := none
    endpointSupport := [] }

/-- Generic-publisher worker on the custom endpoint. -/
def wGeneric : Worker :=
  { baseWorker with modelConfig := genericConfig, endpointType := ENDPOINT_CUSTOM,
                    customUrl := some "http://localhost:8080/v1/chat" }

/-- Worker with a two-turn history. -/
def wHistory : Worker :=
  { baseWorker with history := [{ role := "user", content := "q1" },
                                { role := "assistant", content := "a1" }] }

/-- Worker with an attachment of a single undecodable byte and an unrecognised
file type. -/
def wBinary : Worker :=
  { baseWorker with filePath := some "f.bin", fileData := some [255] }

/-- Anthropic `content_block_delta`/`text_delta` event carrying `s`. -/
def textDeltaEvent (s : String) : JVal :=
  .obj [("type", .str "content_block_delta"),
        ("delta", .obj [("type", .str "text_delta"), ("text", .str s)])]

/-- Anthropic `content_block_start` event for a text block seeded with `s`. -/
def startTextEvent (s : String) : JVal :=
  .obj [("type", .str "content_block_start"),
        ("content_block", .obj [("type", .str "text"), ("text", .str s)])]

/-- Anthropic `content_block_start` event for a `tool_use` block. -/
def toolUseStartEvent : JVal :=
  .obj [("type", .str "content_block_start"),
        ("content_block", .obj [("type", .str "tool_use"), ("name", .str "memory")])]

/-- Anthropic `content_block_delta`/`input_json_delta` event (tool arguments). -/
def inputJsonDeltaEvent : JVal :=
  .obj [("type", .str "content_block_delta"),
        ("delta", .obj [("type", .str "input_json_delta"), ("partial_json", .str "42")])]

/-- Decode oracle for the anthropic-stream fixtures: `G1`/`G2` are the two text
contributions, `T1`/`T2` the tool-use events, everything else malformed. -/
def sampleJdec : String → Option JVal := fun s =>
  if s = "G1" then some (startTextEvent "Hello ")
  else if s = "G2" then some (textDeltaEvent "world")
  else if s = "T1" then some toolUseStartEvent
  else if s = "T2" then some inputJsonDeltaEvent
  else none

/-- Decode oracle for the worker-race fixture: the single stream line `L1`
decodes to a `text_delta` event carrying `hi`. -/
def raceJdec : String → Option JVal :=
  fun s => if s = "L1" then some (textDeltaEvent "hi") else none

/-- Environment of a run that is never cancelled until after its last
checkpoint: the happy path delivers one chunk `data: L1`, and `cancel()`
arrives at step 6 — after the final (sixth) checkpoint, during parsing,
before the terminal emission. -/
def envRace : RunEnv :=
  { cancelStep := some 6
    tokenResult := .ok "tok"
    postResult := .ok { status := 200, bodyText := "", chunks := ["data: L1"],
                        streamError := none }
    jdec := raceJdec
    dec := noDec
    g := noMime }

/-- Environment in which the flag is already set at the first checkpoint. -/
def envCancel0 : RunEnv :=
  { cancelStep := some 0
    tokenResult := .ok "tok"
    postResult := .error "unreachable"
    jdec := noJdec
    dec := noDec
    g := noMime }

/-- A Google "thought" part carrying `s`. -/
def thoughtPart (s : String) : JVal :=
  .obj [("thought", .bool true), ("text", .str s)]

/-- A plain Google text part carrying `s`. -/
def textPart (s : String) : JVal :=
  .obj [("text", .str s)]

/-- A Google response object with one empty thought part and one text part
`hi`, no grounding. -/
def emptyThoughtChunk : JVal :=
  .obj [("candidates",
         .arr [.obj [("content", .obj [("parts", .arr [thoughtPart "", textPart "hi"])])]])]

/-- Decode oracle mapping the single line `T` to `emptyThoughtChunk`. -/
def g6Jdec : String → Option JVal :=
  fun s => if s = "T" then some emptyThoughtChunk else none

/-- Pre-flight input selecting an endpoint the chosen model does not support
(Claude Sonnet 4.5 is Vertex-only; AI Studio is selected). -/
def genMismatch : GenInput :=
  { rawPrompt := "hi"
    modelConfig := claude_sonnet_4_5
    use1mChecked := false
    useMemoryChecked := false
    useGroundingChecked := false
    endpointType := ENDPOINT_AI_STUDIO
    apiKeyText := "k"
    customUrlText := ""
    customApiKeyText := ""
    credentialsPresent := true
    chainMode := false
    history := []
    includeThoughtsChecked := true
    thinkingLevelData := none
    selectedFilePath := none
    selectedFileData := none }

/-! Helper lemmas about the chunk-reading loop and the run orchestration. -/

theorem readChunks_inl_eq (env : RunEnv) :
    ∀ (chunks : List String) (k : Nat) (acc : String) (r : List Emission × Nat),
      readChunks env chunks k acc = .inl r → r.1 = [cancelEmission] := by
  intro chunks
  induction chunks with
  | nil => intro k acc r h; simp [readChunks] at h
  | cons c rest ih =>
    intro k acc r h
    simp only [readChunks] at h
    split at h
    · cases h; rfl
    · exact ih _ _ _ h

theorem readChunks_inr_facts (env : RunEnv) :
    ∀ (chunks : List String) (k : Nat) (acc t : String) (k' : Nat),
      readChunks env chunks k acc = .inr (t, k') →
      k ≤ k' ∧ ∀ j, k ≤ j → j < k' → cancelledAt env j = false := by
  intro chunks
  induction chunks with
  | nil =>
    intro k acc t k' h
    simp only [readChunks, Sum.inr.injEq, Prod.mk.injEq] at h
    refine ⟨h.2 ▸ le_rfl, ?_⟩
    intro j hj hj'
    omega
  | cons c rest ih =>
    intro k acc t k' h
    simp only [readChunks] at h
    split at h
    · cases h
    · rename_i hcan
      obtain ⟨hle, hall⟩ := ih _ _ _ _ h
      refine ⟨by omega, ?_⟩
      intro j hj hj'
      rcases Nat.eq_or_lt_of_le hj with rfl | hlt
      · simpa using hcan
      · exact hall j hlt hj'

theorem runWorkerTail_emits_one (w : Worker) (env : RunEnv) (projectId location : String) :
    ((runWorkerTail w env projectId location).1).length = 1 := by
  unfold runWorkerTail
  repeat' split
  all_goals
    first
    | rfl
    | (rename_i r hr
       show (r.1).length = 1
       rw [readChunks_inl_eq env _ _ _ r hr]
       rfl)

theorem runWorker_emits_one (w : Worker) (env : RunEnv) (projectId location : String) :
    ((runWorker w env projectId location).1).length = 1 := by
  unfold runWorker
  split
  · rfl
  · split
    · rfl
    · exact runWorkerTail_emits_one w env projectId location

theorem cancelledAt_mono_false (env : RunEnv) (j k : Nat) (hjk : j ≤ k)
    (h : cancelledAt env k = false) : cancelledAt env j = false := by
  unfold cancelledAt at h ⊢
  cases henv : env.cancelStep with
  | none => rfl
  | some s => rw [henv] at h; simp at h ⊢; omega

theorem runWorkerTail_cancel_dichotomy (w : Worker) (env : RunEnv) (pid loc : String) :
    (runWorkerTail w env pid loc).1 = [cancelEmission] ∨
      ∀ j, 1 ≤ j → j < (runWorkerTail w env pid loc).2 → cancelledAt env j = false := by
  unfold runWorkerTail
  split
  · exact Or.inl rfl
  next h1 =>
    rw [Bool.not_eq_true] at h1
    split
    next msg hurl =>
      right; intro j hj1 hj2
      replace hj2 : j < 2 := hj2
      exact cancelledAt_mono_false env j 1 (by omega) h1
    next u hurl =>
      split
      next msg hpl =>
        right; intro j hj1 hj2
        replace hj2 : j < 2 := hj2
        exact cancelledAt_mono_false env j 1 (by omega) h1
      next p hpl =>
        split
        · exact Or.inl rfl
        next h2 =>
          rw [Bool.not_eq_true] at h2
          split
          next msg hpost =>
            right; intro j hj1 hj2
            replace hj2 : j < 3 := hj2
            exact cancelledAt_mono_false env j 2 (by omega) h2
          next resp hpost =>
            split
            · exact Or.inl rfl
            next h3 =>
              rw [Bool.not_eq_true] at h3
              split
              next hstat =>
                right; intro j hj1 hj2
                replace hj2 : j < 4 := hj2
                exact cancelledAt_mono_false env j 3 (by omega) h3
              next hstat =>
                split
                next r hrc =>
                  exact Or.inl (show r.1 = [cancelEmission] from
                    readChunks_inl_eq env _ _ _ r hrc)
                next response_text k hrc =>
                  obtain ⟨hk4, hall⟩ := readChunks_inr_facts env _ _ _ _ _ hrc
                  split
                  next e hse =>
                    right; intro j hj1 hj2
                    replace hj2 : j < k := hj2
                    by_cases hj4 : j < 4
                    · exact cancelledAt_mono_false env j 3 (by omega) h3
                    · exact hall j (by omega) hj2
                  next hse =>
                    split
                    · exact Or.inl rfl
                    next hk =>
                      rw [Bool.not_eq_true] at hk
                      right; intro j hj1 hj2
                      replace hj2 : j < k + 1 := hj2
                      by_cases hj4 : j < 4
                      · exact cancelledAt_mono_false env j 3 (by omega) h3
                      · by_cases hjk : j < k
                        · exact hall j (by omega) hjk
                        · have : j = k := by omega
                          subst this
                          exact hk

theorem runWorker_cancel_dichotomy (w : Worker) (env : RunEnv) (pid loc : String) :
    (runWorker w env pid loc).1 = [cancelEmission] ∨
      ∀ j, j < (runWorker w env pid loc).2 → cancelledAt env j = false := by
  unfold runWorker
  split
  · exact Or.inl rfl
  next h0 =>
    rw [Bool.not_eq_true] at h0
    split
    next msg hauth =>
      right; intro j hj
      replace hj : j < 1 := hj
      have : j = 0 := by omega
      subst this; exact h0
    next tok hauth =>
      rcases runWorkerTail_cancel_dichotomy w env pid loc with hl | hr
      · exact Or.inl hl
      · right; intro j hj
        replace hj : j < (runWorkerTail w env pid loc).2 := hj
        rcases Nat.eq_zero_or_pos j with rfl | hpos
        · exact h0
        · exact hr j hpos hj

theorem runWorkerTail_emission_form (w : Worker) (env : RunEnv) (pid loc : String) :
    ∀ e ∈ (runWorkerTail w env pid loc).1,
      (∃ msg, e = errEmission msg) ∨ e.err = "" := by
  intro e he
  unfold runWorkerTail at he
  repeat' split at he
  all_goals
    first
    | (rename_i r hr
       replace he : e ∈ r.1 := he
       rw [readChunks_inl_eq env _ _ _ r hr] at he
       simp only [List.mem_singleton] at he
       subst he
       exact Or.inl ⟨_, rfl⟩)
    | (simp only [List.mem_singleton] at he
       first
       | (subst he; exact Or.inl ⟨_, rfl⟩)
       | (subst he; exact Or.inr rfl))

theorem runWorker_emission_form (w : Worker) (env : RunEnv) (pid loc : String) :
    ∀ e ∈ (runWorker w env pid loc).1,
      (∃ msg, e = errEmission msg) ∨ e.err = "" := by
  intro e he
  unfold runWorker at he
  split at he
  · simp only [List.mem_singleton] at he
    subst he
    exact Or.inl ⟨_, rfl⟩
  · split at he
    · simp only [List.mem_singleton] at he
      subst he
      exact Or.inl ⟨_, rfl⟩
    · exact runWorkerTail_emission_form w env pid loc e he

/-- C1: for every invocation of the worker's `run()` — any worker state and any
environment (cancellation timing, authentication outcome, transport outcome,
stream content) — exactly one terminal `finished` emission is produced: the
emission list of `runWorker` always has length one, so no execution path emits
zero terminal results or more than one. -/
theorem claim_C1_exactly_one_terminal_emission (w : Worker) (env : RunEnv)
    (projectId location : String) :
    ((runWorker w env projectId location).1).length = 1 :=
  runWorker_emits_one w env projectId location

/-- C2 (counterexample to the claim as stated): a cancellation that arrives
before the terminal emission does NOT always yield the cancelled error.  In
this run six checkpoints execute (numbers 0-5, the last one after the final
chunk), and `cancel()` sets the flag at step 6 — after the last checkpoint but
before the terminal emission, i.e. while `parse_response` is running.  The
terminal result is nevertheless a ParsedResult (`hi` parsed from the stream),
not the cancelled error. -/
theorem claim_C2_counterexample :
    envRace.cancelStep = some ((runWorker baseWorker envRace "proj" "global").2) ∧
    (runWorker baseWorker envRace "proj" "global").1 =
      [{ resp := "hi", err := "", raw := "data: L1", inTok := 0, outTok := 0 }] := by
  constructor
  · decide
  · decide

/-- C2 (amended): if `cancel()` sets the flag at or before one of the
cancellation checkpoints that the execution actually reaches (the last such
checkpoint is the one after receipt of the final response chunk, main.py line
1463), the terminal result is exactly the cancelled error, never a
ParsedResult.  The original claim's "at any point before the terminal
emission" fails only for the window between that final checkpoint and the
emission (during parsing), per the counterexample. -/
theorem claim_C2_cancel_before_final_check_yields_cancelled (w : Worker)
    (env : RunEnv) (projectId location : String) (s : Nat)
    (hs : env.cancelStep = some s)
    (hlt : s < (runWorker w env projectId location).2) :
    (runWorker w env projectId location).1 = [cancelEmission] := by
  rcases runWorker_cancel_dichotomy w env projectId location with h | h
  · exact h
  · exfalso
    have hfalse := h s hlt
    unfold cancelledAt at hfalse
    rw [hs] at hfalse
    simp at hfalse

/-- C2 (witness): the amended theorem applied to a concrete run whose flag is
set before checkpoint 0 — the emission is the cancelled error. -/
theorem claim_C2_witness :
    (runWorker baseWorker envCancel0 "proj" "global").1 = [cancelEmission] :=
  claim_C2_cancel_before_final_check_yields_cancelled baseWorker envCancel0
    "proj" "global" 0 rfl (by decide)

/-- C10: every terminal emission whose error field is non-empty — missing API
key, authentication failure, non-200 status, stream-read failure, cancellation,
or any unexpected exception — carries empty response text, empty raw response
text and zero for both token estimates, and it is the run's only emission
(errors are reported once and never retried), so bytes received before a
failure are never returned as a degraded success. -/
theorem claim_C10_error_emissions_carry_nothing (w : Worker) (env : RunEnv)
    (projectId location : String) (e : Emission)
    (he : e ∈ (runWorker w env projectId location).1) (herr : e.err ≠ "") :
    e.resp = "" ∧ e.raw = "" ∧ e.inTok = 0 ∧ e.outTok = 0 ∧
      ((runWorker w env projectId location).1).length = 1 := by
  rcases runWorker_emission_form w env projectId location e he with ⟨msg, rfl⟩ | hok
  · exact ⟨rfl, rfl, rfl, rfl, runWorker_emits_one w env projectId location⟩
  · exact absurd hok herr

/-- C10 (witness): the theorem applied to a concrete cancelled run. -/
theorem claim_C10_witness :
    cancelEmission.resp = "" ∧ cancelEmission.raw = "" ∧ cancelEmission.inTok = 0 ∧
      cancelEmission.outTok = 0 ∧
      ((runWorker baseWorker envCancel0 "proj" "global").1).length = 1 :=
  claim_C10_error_emissions_carry_nothing baseWorker envCancel0 "proj" "global"
    cancelEmission (by decide) (by decide)

/-- C3 (counterexample to the claim as stated): for a custom-access-mode
request whose model's publisher is `anthropic`, `build_request_payload` does
NOT return the minimal OpenAI-style body — the publisher branch is tested
first (main.py line 965), so the anthropic body is built, whose key set is
`anthropic_version/messages/max_tokens/stream`, not
`model/messages/stream/max_tokens`. -/
theorem claim_C3_counterexample :
    wCustomAnthropic.endpointType = ENDPOINT_CUSTOM ∧
    wCustomAnthropic.modelConfig.publisher = "anthropic" ∧
    build_request_payload wCustomAnthropic noDec noMime =
      .ok (anthropicPayload wCustomAnthropic noDec noMime) ∧
    jKeys (anthropicPayload wCustomAnthropic noDec noMime) =
      ["anthropic_version", "messages", "max_tokens", "stream"] ∧
    jKeys (anthropicPayload wCustomAnthropic noDec noMime) ≠
      ["model", "messages", "stream", "max_tokens"] := by
  refine ⟨rfl, rfl, rfl, by decide, by decide⟩

/-- C3 (amended): under the custom access mode the minimal OpenAI-style body —
exactly the keys `model`, `messages`, `stream`, `max_tokens`, with messages
being the history turns followed by the current prompt as a flat list — is
returned precisely when the model's publisher is neither `anthropic` nor
`google`; for those two publishers the publisher-specific branch takes
precedence even under the custom access mode. -/
theorem claim_C3_custom_openai_body_for_other_publishers (w : Worker)
    (dec : List Nat → Option String) (g : String → Option String)
    (hep : w.endpointType = ENDPOINT_CUSTOM)
    (hpa : w.modelConfig.publisher ≠ "anthropic")
    (hpg : w.modelConfig.publisher ≠ "google") :
    build_request_payload w dec g = .ok (openaiPayload w) ∧
    jKeys (openaiPayload w) = ["model", "messages", "stream", "max_tokens"] ∧
    jGet (openaiPayload w) "messages" =
      some (.arr (w.history.map
                    (fun t => .obj [("role", .str t.role), ("content", .str t.content)])
                  ++ [.obj [("role", .str "user"), ("content", .str w.prompt)]])) := by
  refine ⟨?_, rfl, rfl⟩
  unfold build_request_payload
  rw [if_neg hpa, if_neg hpg, if_pos hep]

/-- C3 (witness): the amended theorem at a generic-publisher worker on the
custom endpoint. -/
theorem claim_C3_witness :
    wGeneric.endpointType = ENDPOINT_CUSTOM ∧
    build_request_payload wGeneric noDec noMime = .ok (openaiPayload wGeneric) ∧
    jKeys (openaiPayload wGeneric) = ["model", "messages", "stream", "max_tokens"] :=
  ⟨rfl,
   (claim_C3_custom_openai_body_for_other_publishers wGeneric noDec noMime rfl
     (by decide) (by decide)).1,
   (claim_C3_custom_openai_body_for_other_publishers wGeneric noDec noMime rfl
     (by decide) (by decide)).2.1⟩

/-- C4 (counterexample to the claim as stated): for an extended-context
request whose `len(prompt) // 4` estimate exceeds 1000000 - 1024 (here exactly
1000000), the 1024 floor (main.py line 1045) overrides the ceiling reduction
(line 972), so estimate + max_tokens exceeds 1000000 — the two bounds do NOT
both hold for every prompt. -/
theorem claim_C4_counterexample :
    wBig.use1mContext = true ∧ wBig.modelConfig.supports1mContext = true ∧
    anthropicMaxTokens wBig = 1024 ∧
    1000000 < (Int.ofNat wBig.prompt.length) / 4 + anthropicMaxTokens wBig := by
  have hlen : wBig.prompt.length = 4000000 := by
    show (List.replicate 4000000 'a').length = 4000000
    exact List.length_replicate _ _
  have hmt : anthropicMaxTokens wBig = 1024 := by
    unfold anthropicMaxTokens anthropicMaxOutput
    rw [if_pos ⟨rfl, rfl⟩, hlen]
    decide
  refine ⟨rfl, rfl, hmt, ?_⟩
  rw [hlen, hmt]
  decide

/-- C4 (amended): the emitted anthropic `max_tokens` always satisfies the 1024
floor, and when extended context is requested and supported the bound
`len(prompt) // 4 + max_tokens ≤ 1000000` holds for every prompt whose input
estimate is at most 1000000 - 1024; beyond that the floor wins and the sum
bound fails (see the counterexample). -/
theorem claim_C4_max_tokens_bounds (w : Worker) (dec : List Nat → Option String)
    (g : String → Option String) :
    jGet (anthropicPayload w dec g) "max_tokens" = some (.num (anthropicMaxTokens w)) ∧
    1024 ≤ anthropicMaxTokens w ∧
    (w.use1mContext = true → w.modelConfig.supports1mContext = true →
      (Int.ofNat w.prompt.length) / 4 ≤ 1000000 - 1024 →
      (Int.ofNat w.prompt.length) / 4 + anthropicMaxTokens w ≤ 1000000) := by
  refine ⟨?_, le_max_left _ _, ?_⟩
  · unfold anthropicPayload
    split
    · rfl
    · rfl
  · intro h1 h2 hsmall
    unfold anthropicMaxTokens anthropicMaxOutput
    rw [if_pos ⟨h1, h2⟩]
    have hmin : min w.modelConfig.maxOutputTokens
        (1000000 - (Int.ofNat w.prompt.length) / 4)
        ≤ 1000000 - (Int.ofNat w.prompt.length) / 4 := min_le_right _ _
    have hmax : max 1024 (min w.modelConfig.maxOutputTokens
        (1000000 - (Int.ofNat w.prompt.length) / 4))
        ≤ 1000000 - (Int.ofNat w.prompt.length) / 4 := max_le (by omega) hmin
    omega

/-- C4 (witness): the amended theorem at an extended-context worker with a
two-character prompt: the floor holds and the sum bound holds. -/
theorem claim_C4_witness :
    jGet (anthropicPayload wSmall noDec noMime) "max_tokens" =
      some (.num (anthropicMaxTokens wSmall)) ∧
    1024 ≤ anthropicMaxTokens wSmall ∧
    (Int.ofNat wSmall.prompt.length) / 4 + anthropicMaxTokens wSmall ≤ 1000000 :=
  ⟨(claim_C4_max_tokens_bounds wSmall noDec noMime).1,
   (claim_C4_max_tokens_bounds wSmall noDec noMime).2.1,
   (claim_C4_max_tokens_bounds wSmall noDec noMime).2.2 rfl rfl (by decide)⟩

/-- C7: whenever the selected access mode is not a member of the chosen
model's `endpoint_support` set, `generate_response` (for a request that passes
the generic prompt validation: non-empty, within the input-length budget)
terminates with the capability-mismatch error and never reaches the
worker-started outcome — the worker, and with it every credential refresh,
payload build and network call (which only `runWorker` of a started worker
performs), is never created. -/
theorem claim_C7_capability_mismatch_blocks_worker (i : GenInput)
    (h1 : ¬ (strTrim i.rawPrompt = ""))
    (h2 : ¬ ((strTrim i.rawPrompt).length >
      (if i.use1mChecked ∧ i.modelConfig.supports1mContext then
         i.modelConfig.maxInputTokensExtended.getD i.modelConfig.maxInputTokens
       else i.modelConfig.maxInputTokens) * 4))
    (h3 : i.endpointType ∉ i.modelConfig.endpointSupport) :
    generate_response i = .capabilityMismatch ∧
    ∀ w, generate_response i ≠ .started w := by
  have hg : generate_response i = .capabilityMismatch := by
    simp only [generate_response]
    rw [if_neg h1, if_neg h2, if_pos h3]
  refine ⟨hg, fun w h => ?_⟩
  rw [hg] at h
  cases h

/-- C7 (witness): Claude Sonnet 4.5 (Vertex-only) selected under the AI Studio
endpoint yields the capability mismatch. -/
theorem claim_C7_witness : generate_response genMismatch = .capabilityMismatch :=
  (claim_C7_capability_mismatch_blocks_worker genMismatch (by decide) (by decide)
    (by decide)).1

/-- C8: for a non-empty history, the built payload lists the history turns in
their original order followed by the current turn last, each history turn's
content verbatim; the `assistant`→`model` role remap appears only in the
google-publisher map, while the anthropic-publisher map passes every history
role through unchanged. -/
theorem claim_C8_history_order_and_role_mapping (w : Worker)
    (dec : List Nat → Option String) (g : String → Option String)
    (hne : w.history ≠ []) :
    (w.modelConfig.publisher = "anthropic" →
      build_request_payload w dec g = .ok (anthropicPayload w dec g) ∧
      jGet (anthropicPayload w dec g) "messages" =
        some (.arr (w.history.map
            (fun t => .obj [("role", .str t.role), ("content", .str t.content)])
          ++ [.obj [("role", .str "user"),
                    ("content", .arr (anthropicFileBlocks w dec g
                      ++ [.obj [("type", .str "text"), ("text", .str w.prompt)]]))]]))) ∧
    (w.modelConfig.publisher = "google" →
      build_request_payload w dec g = .ok (googlePayload w dec g) ∧
      jGet (googlePayload w dec g) "contents" =
        some (.arr (w.history.map
            (fun t => .obj [("role",
                             .str (if t.role = "assistant" then "model" else "user")),
                            ("parts", .arr [.obj [("text", .str t.content)]])])
          ++ [.obj [("role", .str "user"),
                    ("parts", .arr (googleFileParts w dec g
                      ++ [.obj [("text", .str w.prompt)]]))]]))) := by
  constructor
  · intro hp
    constructor
    · unfold build_request_payload
      rw [if_pos hp]
    · unfold anthropicPayload
      split
      · rfl
      · rfl
  · intro hp
    constructor
    · unfold build_request_payload
      rw [if_neg (by rw [hp]; decide), if_pos hp]
    · unfold googlePayload
      split
      · split
        · rfl
        · rfl
      · rfl

/-- C8 (witness): concrete two-turn history on the anthropic path — history in
order with roles untouched, current turn last. -/
theorem claim_C8_witness :
    jGet (anthropicPayload wHistory noDec noMime) "messages" =
      some (.arr [.obj [("role", .str "user"), ("content", .str "q1")],
                  .obj [("role", .str "assistant"), ("content", .str "a1")],
                  .obj [("role", .str "user"),
                        ("content",
                         .arr [.obj [("type", .str "text"), ("text", .str "hi")]])]]) :=
  ((claim_C8_history_order_and_role_mapping wHistory noDec noMime (by decide)).1 rfl).2

/-- C9: the payload builders never fail on an attachment, whatever its bytes:
(i) for an image media type the result is independent of the UTF-8 decode
oracle — no decode is attempted — and (ii) the bytes are base64-embedded;
(iii) when UTF-8 decoding of a non-image, non-PDF attachment fails, the
builder still succeeds via the base64 binary fallback (anthropic: a base64
`document` block; google: an `inline_data` part); and (iv)/(v) for both
publishers `build_request_payload` returns a payload (never the error case)
for every byte sequence and every oracle. -/
theorem claim_C9_attachment_safety (w : Worker) (dec dec' : List Nat → Option String)
    (g : String → Option String) (bs : List Nat) :
    (mimeIsImage (effMime w g) = true →
      anthropicFileBlocks w dec g = anthropicFileBlocks w dec' g ∧
      googleFileParts w dec g = googleFileParts w dec' g) ∧
    (w.fileData = some bs → bs ≠ [] → mimeIsImage (effMime w g) = true →
      anthropicFileBlocks w dec g = [b64Block "image" (effMime w g) bs] ∧
      googleFileParts w dec g =
        [.obj [("inline_data", .obj [("mime_type", mimeVal (effMime w g)),
                                     ("data", .str (b64encode bs))])]]) ∧
    (w.fileData = some bs → bs ≠ [] → dec bs = none →
      mimeIsImage (effMime w g) = false → effMime w g ≠ some "application/pdf" →
      anthropicFileBlocks w dec g = [b64Block "document" (effMime w g) bs] ∧
      googleFileParts w dec g =
        [.obj [("inline_data", .obj [("mime_type", mimeVal (effMime w g)),
                                     ("data", .str (b64encode bs))])]]) ∧
    (w.modelConfig.publisher = "anthropic" →
      build_request_payload w dec g = .ok (anthropicPayload w dec g)) ∧
    (w.modelConfig.publisher = "google" →
      build_request_payload w dec g = .ok (googlePayload w dec g)) := by
  refine ⟨?_, ?_, ?_, ?_, ?_⟩
  · intro him
    unfold anthropicFileBlocks googleFileParts
    cases hfd : w.fileData with
    | none => exact ⟨rfl, rfl⟩
    | some bs' =>
      cases bs' with
      | nil => exact ⟨rfl, rfl⟩
      | cons x xs => refine ⟨?_, ?_⟩ <;> simp [him]
  · intro hfd hbs him
    constructor
    · unfold anthropicFileBlocks
      rw [hfd]
      cases bs with
      | nil => exact absurd rfl hbs
      | cons x xs => simp [him]
    · unfold googleFileParts
      rw [hfd]
      cases bs with
      | nil => exact absurd rfl hbs
      | cons x xs => simp [him]
  · intro hfd hbs hdec him hpdf
    constructor
    · unfold anthropicFileBlocks
      rw [hfd]
      cases bs with
      | nil => exact absurd rfl hbs
      | cons x xs => simp [him, hpdf, hdec]
    · unfold googleFileParts
      rw [hfd]
      cases bs with
      | nil => exact absurd rfl hbs
      | cons x xs => simp [him, hdec]
  · intro hp
    unfold build_request_payload
    rw [if_pos hp]
  · intro hp
    unfold build_request_payload
    rw [if_neg (by rw [hp]; decide), if_pos hp]

/-- C9 (witness): a one-byte attachment that is not valid UTF-8 with an
unrecognised media type takes the base64 fallback on both publisher paths. -/
theorem claim_C9_witness :
    anthropicFileBlocks wBinary noDec noMime =
      [b64Block "document" (effMime wBinary noMime) [255]] ∧
    googleFileParts wBinary noDec noMime =
      [.obj [("inline_data", .obj [("mime_type", mimeVal (effMime wBinary noMime)),
                                   ("data", .str (b64encode [255]))])]] :=
  (claim_C9_attachment_safety wBinary noDec noDec noMime [255]).2.2.1 rfl
    (by decide) rfl (by decide) (by decide)

theorem str_empty_append (s : String) : "" ++ s = s := by
  cases s
  rfl

theorem str_append_empty (s : String) : s ++ "" = s := by
  cases s with
  | mk data =>
    show String.mk (data ++ []) = String.mk data
    rw [List.append_nil]

theorem str_append_assoc (a b c : String) : a ++ b ++ c = a ++ (b ++ c) := by
  cases a; cases b; cases c
  show String.mk (_ ++ _ ++ _) = String.mk (_ ++ (_ ++ _))
  rw [List.append_assoc]

theorem concatStrings_append (a b : List String) :
    concatStrings (a ++ b) = concatStrings a ++ concatStrings b := by
  induction a with
  | nil => rw [List.nil_append, concatStrings, str_empty_append]
  | cons x xs ih =>
    rw [List.cons_append, concatStrings, concatStrings, ih, str_append_assoc]

theorem anthropicFold_eq (jdec : String → Option JVal) (lines : List String) :
    ∀ acc, anthropicFold jdec lines acc =
      acc ++ concatStrings (lines.map (anthropicLineText jdec)) := by
  induction lines with
  | nil => intro acc; rw [anthropicFold, List.map_nil, concatStrings, str_append_empty]
  | cons l rest ih =>
    intro acc
    rw [anthropicFold, List.map_cons, concatStrings, ih, str_append_assoc]

theorem anthropicLineText_of_undecodable (jdec : String → Option JVal) (line : String)
    (h : jdec (strTrim (strDrop line 6)) = none) :
    anthropicLineText jdec line = "" := by
  unfold anthropicLineText
  split
  · simp only [h]
    exact ite_self ""
  · rfl

/-- C5: the anthropic parse of any input text is the concatenation, in arrival
order, of the per-line contributions of its newline-split lines, where the
contribution of a line is: the `text` field of a `content_block_start` event
with block type `text`, the `text` field of a `content_block_delta` event with
delta type `text_delta`, nothing for `tool_use` block starts and
`input_json_delta` deltas, and nothing for a line whose payload is not valid
JSON — so interleaving one undecodable line anywhere leaves the parse of the
remaining lines unchanged. -/
theorem claim_C5_anthropic_stream_parse (jdec : String → Option JVal) :
    (∀ text, parse_anthropic_stream jdec text =
        concatStrings ((splitLines text).map (anthropicLineText jdec))) ∧
    (∀ j, jGet j "type" = some (.str "content_block_start") →
        jGet (jGetD j "content_block" (.obj [])) "type" = some (.str "text") →
        anthropicEventText j = jGetStr (jGetD j "content_block" (.obj [])) "text") ∧
    (∀ j, jGet j "type" = some (.str "content_block_delta") →
        jGet (jGetD j "delta" (.obj [])) "type" = some (.str "text_delta") →
        anthropicEventText j = jGetStr (jGetD j "delta" (.obj [])) "text") ∧
    (∀ j, jGet j "type" = some (.str "content_block_start") →
        jGet (jGetD j "content_block" (.obj [])) "type" = some (.str "tool_use") →
        anthropicEventText j = "") ∧
    (∀ j, jGet j "type" = some (.str "content_block_delta") →
        jGet (jGetD j "delta" (.obj [])) "type" = some (.str "input_json_delta") →
        anthropicEventText j = "") ∧
    (∀ pre post line, jdec (strTrim (strDrop line 6)) = none →
        anthropicFold jdec (pre ++ line :: post) "" =
          anthropicFold jdec (pre ++ post) "") := by
  refine ⟨?_, ?_, ?_, ?_, ?_, ?_⟩
  · intro text
    rw [parse_anthropic_stream, anthropicFold_eq, str_empty_append]
  · intro j h1 h2
    simp [anthropicEventText, h1, h2]
  · intro j h1 h2
    simp [anthropicEventText, h1, h2]
  · intro j h1 h2
    simp [anthropicEventText, h1, h2]
  · intro j h1 h2
    simp [anthropicEventText, h1, h2]
  · intro pre post line h
    simp only [anthropicFold_eq, str_empty_append, List.map_append, List.map_cons,
      concatStrings_append, concatStrings,
      anthropicLineText_of_undecodable jdec line h]

/-- C5 (witness): one text start, one text delta, a tool-use start, an
input-json delta, one malformed line and a `[DONE]` marker interleaved: the
parse is exactly the two text contributions in order, and removing the
malformed line does not change the fold. -/
theorem claim_C5_witness :
    parse_anthropic_stream sampleJdec
        ("data: G1\nevent: x\ndata: BAD\ndata: T1\ndata: G2\ndata: T2\ndata: [DONE]") =
      "Hello world" ∧
    anthropicFold sampleJdec (["data: G1"] ++ "data: BAD" :: ["data: G2"]) "" =
      anthropicFold sampleJdec (["data: G1"] ++ ["data: G2"]) "" := by
  refine ⟨by decide, ?_⟩
  exact (claim_C5_anthropic_stream_parse sampleJdec).2.2.2.2.2
    ["data: G1"] ["data: G2"] "data: BAD" rfl

theorem mem_firstOccur (l : List String) : ∀ v, v ∈ firstOccur l ↔ v ∈ l := by
  induction l using firstOccur.induct with
  | case1 => intro v; rw [firstOccur]
  | case2 u rest ih =>
    intro v
    rw [firstOccur]
    constructor
    · intro h
      rcases List.mem_cons.mp h with rfl | h
      · exact List.mem_cons_self _ _
      · have := (ih v).mp h
        exact List.mem_cons_of_mem _ (List.mem_filter.mp this).1
    · intro h
      rcases List.mem_cons.mp h with rfl | h
      · exact List.mem_cons_self _ _
      · by_cases hv : v = u
        · subst hv; exact List.mem_cons_self _ _
        · exact List.mem_cons_of_mem _ ((ih v).mpr (List.mem_filter.mpr ⟨h, by simp [hv]⟩))

theorem firstOccur_nodup (l : List String) : (firstOccur l).Nodup := by
  induction l using firstOccur.induct with
  | case1 => simp [firstOccur]
  | case2 u rest ih =>
    rw [firstOccur]
    refine List.nodup_cons.mpr ⟨?_, ih⟩
    intro hmem
    have := (mem_firstOccur _ u).mp hmem
    simp at this

theorem filter_not_mem_append (l seen : List String) (u : String) :
    ((l.filter (fun v => v ∉ seen)).filter (fun v => v ≠ u))
      = l.filter (fun v => v ∉ seen ++ [u]) := by
  rw [List.filter_filter]
  apply List.filter_congr
  intro x hx
  by_cases h1 : x = u <;> by_cases h2 : x ∈ seen <;>
    simp [h1, h2, List.mem_append]

theorem numberSources_map_uri (srcs : List GSource) : ∀ (seen : List String),
    (numberSources seen srcs).map (fun p => p.2.uri)
      = firstOccur ((srcs.map GSource.uri).filter (fun u => u ∉ seen)) := by
  induction srcs with
  | nil =>
    intro seen
    simp only [List.map_nil, List.filter_nil, numberSources]
    rw [firstOccur]
  | cons s rest ih =>
    intro seen
    by_cases hmem : s.uri ∈ seen
    · rw [numberSources, if_pos hmem, List.map_cons, List.filter_cons]
      simp only [hmem, not_true_eq_false, decide_False, Bool.false_eq_true, if_false]
      exact ih seen
    · rw [numberSources, if_neg hmem, List.map_cons, List.map_cons, List.filter_cons]
      simp only [hmem, not_false_eq_true, decide_True, if_true]
      rw [firstOccur, ih (seen ++ [s.uri]), filter_not_mem_append]

theorem numberSources_map_fst (srcs : List GSource) : ∀ (seen : List String),
    (numberSources seen srcs).map Prod.fst
      = List.range' (seen.length + 1) (numberSources seen srcs).length := by
  induction srcs with
  | nil => intro seen; rfl
  | cons s rest ih =>
    intro seen
    by_cases hmem : s.uri ∈ seen
    · rw [numberSources, if_pos hmem]
      exact ih seen
    · rw [numberSources, if_neg hmem, List.map_cons, List.length_cons,
          List.range'_succ, ih (seen ++ [s.uri])]
      congr 2
      simp

theorem str_ne_empty_of_right (a b : String) (h : b.data ≠ []) : a ++ b ≠ "" := by
  cases a with
  | mk da =>
    cases b with
    | mk db =>
      intro hc
      have hdata : da ++ db = [] := congrArg String.data hc
      exact h (List.append_eq_nil.mp hdata).2

theorem thinkSection_ne_iff (th : String) (inc : Bool) :
    thinkSection th inc ≠ "" ↔ (strTrim th ≠ "" ∧ inc = true) := by
  unfold thinkSection
  by_cases h : strTrim th ≠ "" ∧ inc = true
  · rw [if_pos h]
    constructor
    · intro _; exact h
    · intro _
      exact str_ne_empty_of_right _ _ (by decide)
  · rw [if_neg h]
    simp [h]

theorem parse_google_ordered (jdec : String → Option JVal) (inc : Bool) (text : String)
    (h : thinkSection (googleAccum jdec text).thoughts inc
         ++ sourcesSection (googleAccum jdec text).sources ≠ "") :
    parse_google_stream jdec inc text =
      thinkSection (googleAccum jdec text).thoughts inc
      ++ (sourcesSection (googleAccum jdec text).sources
      ++ ("📝 FINAL ANSWER\n" ++ (eqSep ++ ("\n"
          ++ strTrim (googleAccum jdec text).answer)))) := by
  unfold parse_google_stream
  show (if thinkSection (googleAccum jdec text).thoughts inc
          ++ sourcesSection (googleAccum jdec text).sources ≠ "" then
        thinkSection (googleAccum jdec text).thoughts inc
          ++ sourcesSection (googleAccum jdec text).sources
          ++ "📝 FINAL ANSWER\n" ++ eqSep ++ "\n"
       else "") ++ strTrim (googleAccum jdec text).answer = _
  rw [if_pos h]
  simp only [str_append_assoc]

theorem parse_google_only_answer (jdec : String → Option JVal) (inc : Bool) (text : String)
    (hth : thinkSection (googleAccum jdec text).thoughts inc = "")
    (hsrc : (googleAccum jdec text).sources = []) :
    parse_google_stream jdec inc text = strTrim (googleAccum jdec text).answer := by
  have hpre : thinkSection (googleAccum jdec text).thoughts inc
      ++ sourcesSection (googleAccum jdec text).sources = "" := by
    rw [hth, hsrc]; rfl
  unfold parse_google_stream
  show (if thinkSection (googleAccum jdec text).thoughts inc
          ++ sourcesSection (googleAccum jdec text).sources ≠ "" then
        thinkSection (googleAccum jdec text).thoughts inc
          ++ sourcesSection (googleAccum jdec text).sources
          ++ "📝 FINAL ANSWER\n" ++ eqSep ++ "\n"
       else "") ++ strTrim (googleAccum jdec text).answer
      = strTrim (googleAccum jdec text).answer
  rw [if_neg (fun hne => hne hpre)]
  exact str_empty_append _

/-- C6 (counterexample to the claim as stated): a chunk containing a thought
part with empty text accumulates the thought text `"\n"` — non-empty — yet
with `include_thoughts` enabled no thinking section appears, because the code
gates the section on the STRIPPED thought text (main.py line 1292); the output
is just the bare answer `hi`. -/
theorem claim_C6_counterexample :
    (googleAccum g6Jdec "T").thoughts ≠ "" ∧
    thinkSection (googleAccum g6Jdec "T").thoughts true = "" ∧
    parse_google_stream g6Jdec true "T" = "hi" := by
  refine ⟨by decide, by decide, by decide⟩

/-- C6 (amended): for every input, (i) the emitted citation list has exactly
one numbered entry per distinct URI — the listed URIs are the first-occurrence
deduplication of the accumulated candidate URIs (no duplicates, same URI set)
and the attached numbers are `1..n` in order; (ii) the thinking section is
non-empty iff the accumulated thought text is non-empty AFTER whitespace
stripping and `include_thoughts` is enabled (so with it disabled no thinking
section ever appears); (iii) when any section precedes, the output is thinking
section, then sources section, then the final-answer header and answer; and
(iv) when only the answer is present, no section headers are emitted at all —
the output is exactly the stripped accumulated answer. -/
theorem claim_C6_google_output_structure (jdec : String → Option JVal)
    (inc : Bool) (text : String) :
    (∀ srcs : List GSource,
        (numberSources [] srcs).map (fun p => p.2.uri)
          = firstOccur (srcs.map GSource.uri) ∧
        ((numberSources [] srcs).map (fun p => p.2.uri)).Nodup ∧
        (∀ u, u ∈ (numberSources [] srcs).map (fun p => p.2.uri) ↔
              u ∈ srcs.map GSource.uri) ∧
        (numberSources [] srcs).map Prod.fst
          = List.range' 1 (numberSources [] srcs).length) ∧
    (∀ th, thinkSection th inc ≠ "" ↔ (strTrim th ≠ "" ∧ inc = true)) ∧
    (thinkSection (googleAccum jdec text).thoughts inc
        ++ sourcesSection (googleAccum jdec text).sources ≠ "" →
      parse_google_stream jdec inc text =
        thinkSection (googleAccum jdec text).thoughts inc
        ++ (sourcesSection (googleAccum jdec text).sources
        ++ ("📝 FINAL ANSWER\n" ++ (eqSep ++ ("\n"
            ++ strTrim (googleAccum jdec text).answer))))) ∧
    (thinkSection (googleAccum jdec text).thoughts inc = "" →
      (googleAccum jdec text).sources = [] →
      parse_google_stream jdec inc text = strTrim (googleAccum jdec text).answer) := by
  refine ⟨?_, fun th => thinkSection_ne_iff th inc,
         parse_google_ordered jdec inc text, parse_google_only_answer jdec inc text⟩
  intro srcs
  have h1 : (numberSources [] srcs).map (fun p => p.2.uri)
      = firstOccur (srcs.map GSource.uri) := by
    have h := numberSources_map_uri srcs []
    simpa using h
  refine ⟨h1, ?_, ?_, numberSources_map_fst srcs []⟩
  · rw [h1]; exact firstOccur_nodup _
  · intro u; rw [h1, mem_firstOccur]

/-- C6 (witness): the amended theorem applied to a duplicated-URI source list
(one entry survives) and to the empty-thought chunk with include-thoughts
disabled (no thinking section, bare answer). -/
theorem claim_C6_witness :
    (numberSources [] [{ title := "A", uri := "u1" }, { title := "B", uri := "u1" }]).map
        (fun p => p.2.uri) =
      firstOccur (([{ title := "A", uri := "u1" },
                    { title := "B", uri := "u1" }] : List GSource).map GSource.uri) ∧
    parse_google_stream g6Jdec false "T" = "hi" :=
  ⟨((claim_C6_google_output_structure g6Jdec false "T").1 _).1,
   ((claim_C6_google_output_structure g6Jdec false "T").2.2.2 (by decide)
     (by decide)).trans (by decide)⟩
